import Mathlib

/-!
Shallow embedding of the Heliotherm Modbus integration
(custom_components/heliotherm/coordinator.py, number.py and
custom_components/hacs_heliotherm/const.py), together with proofs about
its decoding, polling, caching and write-gating behaviour.

Conventions:
* Modbus register words are modelled as `Nat` (pymodbus returns the raw
  unsigned 16-bit register contents as Python ints in [0, 65535]).
* Python floats are modelled as exact rationals `ℚ` except where IEEE-754
  double rounding is the point of the statement; there an explicit
  round-to-nearest-even model `fl64` is used.
* The Home Assistant `DataUpdateCoordinator` base class is not part of this
  repository; its refresh wrapper (store returned data, set
  `last_update_success`) and the spec's snapshot generation counter are
  modelled from the spec, see `refresh`.
-/

namespace Heliotherm

/-- RegisterType enum from const.py: which Modbus bank a field lives in. -/
inductive RegisterType where
  | holding
  | input
deriving DecidableEq

/-- DataType enum from const.py: encoding of a register value. -/
inductive DataType where
  | int16
  | float32
  | uint16
deriving DecidableEq

/-- SensorDescriptor dataclass from const.py (UI-only metadata omitted:
unit, device_class, icon). -/
structure SensorDescriptor where
  register : Nat
  name : String
  data_type : DataType := .int16
  scale : ℚ := 1
  register_type : RegisterType := .holding
deriving DecidableEq

/-- SwitchDescriptor dataclass from const.py (icon omitted). -/
structure SwitchDescriptor where
  register : Nat
  name : String
  writable : Bool := true
  write_register : Option Nat := none
deriving DecidableEq

/-- NumberDescriptor dataclass from const.py (unit, icon omitted). -/
structure NumberDescriptor where
  register : Nat
  name : String
  min_value : ℚ
  max_value : ℚ
  data_type : DataType := .int16
  scale : ℚ := 1
  step : ℚ := 1
  writable : Bool := true
deriving DecidableEq

/-- SENSOR_DESCRIPTORS from const.py, as an insertion-ordered association
list (Python dicts preserve insertion order). -/
def SENSOR_DESCRIPTORS : List (String × SensorDescriptor) :=
  [ ("supply_temperature",
      { register := 0x0064, name := "Supply Temperature",
        data_type := .float32, scale := 1, register_type := .input }),
    ("return_temperature",
      { register := 0x0066, name := "Return Temperature",
        data_type := .float32, scale := 1, register_type := .input }),
    ("setpoint_temperature",
      { register := 0x0068, name := "Setpoint Temperature",
        scale := 0.1, register_type := .holding }),
    ("outside_temperature",
      { register := 0x006A, name := "Outside Temperature",
        data_type := .float32, scale := 1, register_type := .input }),
    ("pump_status",
      { register := 0x006E, name := "Pump Status",
        scale := 1, register_type := .input }),
    ("operating_mode",
      { register := 0x006F, name := "Operating Mode",
        scale := 1, register_type := .input }),
    ("device_status",
      { register := 0x0070, name := "Device Status",
        scale := 1, register_type := .input }),
    ("system_pressure",
      { register := 0x0078, name := "System Pressure",
        data_type := .float32, scale := 1, register_type := .input }),
    ("power_output",
      { register := 0x0082, name := "Power Output",
        data_type := .float32, scale := 1, register_type := .input }),
    ("coefficient_of_performance",
      { register := 0x0084, name := "Coefficient of Performance",
        data_type := .float32, scale := 1, register_type := .input }),
    ("compressor_power_input",
      { register := 0x008C, name := "Compressor Power Input",
        data_type := .float32, scale := 1, register_type := .input }),
    ("flow_rate",
      { register := 0x008E, name := "Flow Rate",
        data_type := .float32, scale := 1, register_type := .input }),
    ("operating_hours",
      { register := 0x0096, name := "Operating Hours",
        scale := 1, register_type := .input }),
    ("error_code",
      { register := 0x0097, name := "Error Code",
        scale := 1, register_type := .input }) ]

/-- SWITCH_DESCRIPTORS from const.py. -/
def SWITCH_DESCRIPTORS : List (String × SwitchDescriptor) :=
  [ ("circulation_pump",
      { register := 0x00C8, name := "Circulation Pump", writable := true }),
    ("auxiliary_heater",
      { register := 0x00C9, name := "Auxiliary Heater", writable := true }),
    ("compressor_enable",
      { register := 0x00CA, name := "Compressor Enable", writable := true }),
    ("hot_water_pump",
      { register := 0x00CB, name := "Hot Water Circulation Pump", writable := true }) ]

/-- NUMBER_DESCRIPTORS from const.py. -/
def NUMBER_DESCRIPTORS : List (String × NumberDescriptor) :=
  [ ("target_supply_temperature",
      { register := 0x012C, name := "Target Supply Temperature",
        data_type := .float32, min_value := 10, max_value := 60,
        scale := 1, step := 0.5, writable := true }),
    ("target_room_temperature",
      { register := 0x012E, name := "Target Room Temperature",
        min_value := 10, max_value := 30,
        scale := 0.1, step := 0.5, writable := true }),
    ("target_dhw_temperature",
      { register := 0x0130, name := "Target DHW Temperature",
        min_value := 30, max_value := 65,
        scale := 0.1, step := 1, writable := true }),
    ("compressor_frequency_target",
      { register := 0x0132, name := "Compressor Frequency Target",
        min_value := 0, max_value := 120,
        scale := 1, step := 1, writable := true }),
    ("max_pressure_setpoint",
      { register := 0x0134, name := "Maximum Pressure Setpoint",
        data_type := .float32, min_value := 1, max_value := 35,
        scale := 1, step := 0.5, writable := true }),
    ("min_pressure_setpoint",
      { register := 0x0136, name := "Minimum Pressure Setpoint",
        data_type := .float32, min_value := 1, max_value := 35,
        scale := 1, step := 0.5, writable := true }) ]

/-- Value of a decoded field as stored in the coordinator's data dict:
a Python number (float or int, exact rational), an IEEE special produced
by float32 decoding, or a bool (switch fields store bool(value)). -/
inductive PyVal where
  | num (q : ℚ)
  | inf
  | neginf
  | nan
  | boolean (b : Bool)
deriving DecidableEq

/-- IEEE-754 single-precision interpretation of a 32-bit pattern, as done by
struct.unpack of a 4-byte big-endian buffer in coordinator.py. -/
def float32FromBits (bits : Nat) : PyVal :=
  let sign : Nat := bits / 2 ^ 31 % 2
  let expo : Nat := bits / 2 ^ 23 % 2 ^ 8
  let frac : Nat := bits % 2 ^ 23
  if expo = 255 then
    if frac = 0 then (if sign = 0 then .inf else .neginf) else .nan
  else
    let mag : ℚ :=
      if expo = 0 then (frac : ℚ) * (2 : ℚ) ^ (-(149 : ℤ))
      else ((2 ^ 23 + frac : ℚ)) * (2 : ℚ) ^ ((expo : ℤ) - 150)
    .num (if sign = 0 then mag else -mag)

/-- Multiplication of a decoded value by the descriptor scale
(`value * descriptor.scale` in _async_update_data), extended to the IEEE
specials the float path can produce. -/
def pyvalMulScale : PyVal → ℚ → PyVal
  | .num q, s => .num (q * s)
  | .inf, s => if 0 < s then .inf else if s < 0 then .neginf else .nan
  | .neginf, s => if 0 < s then .neginf else if s < 0 then .inf else .nan
  | .nan, _ => .nan
  | .boolean b, s => .num ((if b then 1 else 0) * s)

/-- Result of async_read_register as seen by the decode code: a single int
(count = 1) or the raw register list (count ≠ 1). -/
inductive RegValue where
  | single (v : Nat)
  | multi (regs : List Nat)
deriving DecidableEq

/-- Per-field decode of _async_update_data's sensor/number loop body on a
non-None read result: the Float32 branch packs the first register as the
big-endian high word and the second as the low word and reinterprets
(struct.pack of two H fields fails for words outside [0, 65535], and a
missing second register raises, both caught and the field skipped);
otherwise the raw register value is used directly. The result is then
multiplied by the descriptor's scale. `none` means the field is skipped. -/
def decodeValue (dt : DataType) (scale : ℚ) (v : RegValue) : Option PyVal :=
  let rc := if dt = .float32 then 2 else 1
  if rc = 2 then
    match v with
    | .multi (h :: l :: _) =>
        if h < 2 ^ 16 ∧ l < 2 ^ 16 then
          some (pyvalMulScale (float32FromBits (h * 2 ^ 16 + l)) scale)
        else none
    | .multi _ => none
    | .single v0 => some (.num ((v0 : ℚ) * scale))
  else
    match v with
    | .multi (v0 :: _) => some (.num ((v0 : ℚ) * scale))
    | .multi [] => none
    | .single v0 => some (.num ((v0 : ℚ) * scale))

/-- Per-field decode of the switch loop body: `bool(value)` of the register
word (or of the first list element). -/
def decodeSwitchValue (v : RegValue) : Option PyVal :=
  match v with
  | .single v0 => some (.boolean (v0 != 0))
  | .multi (v0 :: _) => some (.boolean (v0 != 0))
  | .multi [] => none

/-- Wire-level operations of the pymodbus AsyncModbusTcpClient as used (or
available but unused) by the coordinator; each carries the arguments the
coordinator passes. -/
inductive ModbusCall where
  | connect
  | readHolding (address count slave : Nat)
  | readInput (address count slave : Nat)
  | writeSingle (address value slave : Nat)
deriving DecidableEq

/-- Outcome of a connect attempt: established, asyncio timeout, or any other
transport error (including `connect()` returning False). -/
inductive ConnectResult where
  | ok
  | timeout
  | err
deriving DecidableEq

/-- Outcome of a register read: a successful response carrying the register
list, an error response (`result.isError()`), an asyncio timeout, a
ModbusException, or any other exception. -/
inductive ReadResult where
  | ok (regs : List Nat)
  | errorResponse
  | timeout
  | modbusErr
  | exc
deriving DecidableEq

/-- Outcome of a single-register write. -/
inductive WriteResult where
  | ok
  | errorResponse
  | timeout
  | modbusErr
  | exc
deriving DecidableEq

/-- A device/transport behaviour: what each wire operation returns.
Deterministic per address/count within the run under consideration. -/
structure Transport where
  connectResult : ConnectResult
  readResult : Nat → Nat → ReadResult
  writeResult : Nat → Nat → WriteResult

/-- Coordinator state owned by the repository's code: the read_only
configuration flag, whether a live client connection exists
(`self.client and self.client.connected`), and the last-known-good data
cache `self.last_valid_data`. -/
structure CoordState where
  read_only : Bool
  connected : Bool
  last_valid_data : List (String × PyVal)
deriving DecidableEq

/-- async_connect: reuse a live connection without touching the transport;
otherwise attempt one connect (the attempt is logged whatever its outcome).
On timeout or error the client is dropped (`self.client = None`) and
UpdateFailed is raised: the Bool result is false exactly when it raises. -/
def connectStep (connected : Bool) (t : Transport) :
    Bool × Bool × List ModbusCall :=
  if connected then (true, true, [])
  else
    match t.connectResult with
    | .ok => (true, true, [.connect])
    | .timeout => (false, false, [.connect])
    | .err => (false, false, [.connect])

/-- Interpretation of a read outcome by async_read_register: error responses,
timeouts, ModbusException and other exceptions all give None; a successful
response gives `registers[0]` for count = 1 (None when empty) and the whole
register list otherwise. -/
def interpRead (r : ReadResult) (count : Nat) : Option RegValue :=
  match r with
  | .ok regs =>
      if count = 1 then
        match regs with
        | [] => none
        | v :: _ => some (.single v)
      else some (.multi regs)
  | _ => none

/-- async_read_register: ensures a connection (a connect failure is caught by
the catch-all handler and yields None), then always issues a Read Holding
Registers request — the descriptor bank never reaches this function — with
slave id 1, bounded by a timeout. Returns the interpreted value, the new
connection flag and the wire calls issued. -/
def readReg (connected : Bool) (t : Transport) (register count : Nat) :
    Option RegValue × Bool × List ModbusCall :=
  if connected then
    (interpRead (t.readResult register count) count, true,
      [.readHolding register count 1])
  else
    match t.connectResult with
    | .ok =>
        (interpRead (t.readResult register count) count, true,
          [.connect, .readHolding register count 1])
    | .timeout => (none, false, [.connect])
    | .err => (none, false, [.connect])

/-- Accumulator threaded through the three descriptor loops of
_async_update_data: the working data dict, the connection flag and the wire
call log. -/
structure PollAcc where
  data : List (String × PyVal)
  connected : Bool
  log : List ModbusCall
deriving DecidableEq

/-- Number of registers requested for a data type: 2 for FLOAT32, else 1. -/
def registerCount (dt : DataType) : Nat :=
  if dt = .float32 then 2 else 1

/-- One iteration of the sensor loop: read, decode, and append the field to
the working dict when both read and decode succeed; any failure skips just
this field. -/
def sensorStep (t : Transport) (acc : PollAcc) (kd : String × SensorDescriptor) :
    PollAcc :=
  let rc := registerCount kd.2.data_type
  let r := readReg acc.connected t kd.2.register rc
  { data := acc.data ++
      (match r.1.bind (decodeValue kd.2.data_type kd.2.scale) with
        | some val => [(kd.1, val)]
        | none => []),
    connected := r.2.1,
    log := acc.log ++ r.2.2 }

/-- One iteration of the switch loop: always a single-register read, stored
as bool(value). -/
def switchStep (t : Transport) (acc : PollAcc) (kd : String × SwitchDescriptor) :
    PollAcc :=
  let r := readReg acc.connected t kd.2.register 1
  { data := acc.data ++
      (match r.1.bind decodeSwitchValue with
        | some val => [(kd.1, val)]
        | none => []),
    connected := r.2.1,
    log := acc.log ++ r.2.2 }

/-- One iteration of the number loop; identical decode to the sensor loop. -/
def numberStep (t : Transport) (acc : PollAcc) (kd : String × NumberDescriptor) :
    PollAcc :=
  let rc := registerCount kd.2.data_type
  let r := readReg acc.connected t kd.2.register rc
  { data := acc.data ++
      (match r.1.bind (decodeValue kd.2.data_type kd.2.scale) with
        | some val => [(kd.1, val)]
        | none => []),
    connected := r.2.1,
    log := acc.log ++ r.2.2 }

/-- The three sequential field sweeps of _async_update_data over the
catalogs, starting from an established connection state. -/
def pollAll (t : Transport) (connected : Bool) : PollAcc :=
  let a1 := SENSOR_DESCRIPTORS.foldl (sensorStep t) ⟨[], connected, []⟩
  let a2 := SWITCH_DESCRIPTORS.foldl (switchStep t) a1
  NUMBER_DESCRIPTORS.foldl (numberStep t) a2

/-- Result of one _async_update_data call: on success, the cycle's fresh
working dict together with the value actually returned
(`return data or self.last_valid_data`); `Except.error` models the
UpdateFailed raised to the scheduler. -/
def updateData (st : CoordState) (t : Transport) :
    Except Unit (List (String × PyVal) × List (String × PyVal)) ×
      CoordState × List ModbusCall :=
  let c := connectStep st.connected t
  if c.1 then
    let acc := pollAll t c.2.1
    let lvd := if acc.data = [] then st.last_valid_data else acc.data
    (.ok (acc.data, if acc.data = [] then st.last_valid_data else acc.data),
      { st with connected := acc.connected, last_valid_data := lvd },
      c.2.2 ++ acc.log)
  else
    (.error (), { st with connected := c.2.1 }, c.2.2)

/-- Coordinator as observed by entities: the repository-owned state plus the
snapshot fields of the surrounding store. `data` and `last_update_success`
follow Home Assistant's DataUpdateCoordinator contract (the base class is
not part of this repository); `generation` is the spec's snapshot generation
counter. -/
structure Coordinator where
  st : CoordState
  data : List (String × PyVal)
  last_update_success : Bool
  generation : Nat
deriving DecidableEq

/-- Modelled from the spec: the refresh wrapper around _async_update_data.
The surrounding DataUpdateCoordinator (external to this repository) stores
the returned value and sets `last_update_success := true` when
_async_update_data returns, and keeps `data` while setting
`last_update_success := false` when it raises UpdateFailed; the spec's
`generation` counter increments exactly when a non-empty working snapshot
replaces the store. -/
def refresh (c : Coordinator) (t : Transport) : Coordinator × List ModbusCall :=
  match updateData c.st t with
  | (.ok (fresh, ret), st1, log) =>
      ({ st := st1, data := ret, last_update_success := true,
         generation := if fresh = [] then c.generation else c.generation + 1 },
        log)
  | (.error _, st1, log) =>
      ({ st := st1, data := c.data, last_update_success := false,
         generation := c.generation }, log)

/-- Result of async_write_register: either the ValueError raised by the
read-only guard before anything else happens, or the Bool the function
returns. -/
inductive WriteOutcome where
  | raisedReadOnly
  | returned (b : Bool)
deriving DecidableEq

/-- async_write_register at the coordinator level. The read-only guard
raises before any transport call; then a connection is ensured (a connect
failure is caught by the catch-all handler and returns False), the single
Write Single Register request is issued with slave id 1 (logged whatever its
outcome), and on a successful response async_request_refresh runs a full
poll cycle before True is returned. Modelled from the spec: the refresh
triggered through async_request_refresh is taken as immediate and
synchronous, as the spec describes; error responses, timeouts and
exceptions return False. -/
def coordWrite (c : Coordinator) (t : Transport) (register value : Nat) :
    WriteOutcome × Coordinator × List ModbusCall :=
  if c.st.read_only then (.raisedReadOnly, c, [])
  else
    let conn := connectStep c.st.connected t
    if conn.1 then
      let c1 : Coordinator := { c with st := { c.st with connected := conn.2.1 } }
      match t.writeResult register value with
      | .ok =>
          let r := refresh c1 t
          (.returned true, r.1,
            conn.2.2 ++ [.writeSingle register value 1] ++ r.2)
      | _ =>
          (.returned false, c1,
            conn.2.2 ++ [.writeSingle register value 1])
    else
      (.returned false, { c with st := { c.st with connected := conn.2.1 } },
        conn.2.2)

/-- Round a / b (b > 0) to the nearest integer with ties to even. -/
def rnte (a b : Nat) : Nat :=
  let q := a / b
  let r := a % b
  if 2 * r < b then q
  else if b < 2 * r then q + 1
  else if q % 2 = 0 then q else q + 1

/-- Floor of the base-2 logarithm, by structural recursion on a fuel
argument (the first); with fuel ≥ the argument it equals the usual log2. -/
def log2fuel : Nat → Nat → Nat
  | 0, _ => 0
  | f + 1, n => if n < 2 then 0 else log2fuel f (n / 2) + 1

/-- Floor of the base-2 logarithm of a positive Nat. -/
def natLog2 (n : Nat) : Nat := log2fuel n n

/-- Dyadic representation of an IEEE-754 binary64 value: the rational
m / 2 ^ e. The representation is not canonical; `dyToRat` gives the
denoted number. The model covers the nonnegative normal range, which is
all the number write path exercises. -/
structure Dy where
  m : ℤ
  e : ℕ
deriving DecidableEq

/-- Rational denoted by a dyadic. -/
def dyToRat (x : Dy) : ℚ := (x.m : ℚ) / 2 ^ x.e

/-- Round the positive fraction a / b (a, b > 0, normal range) to 53
significant bits, to nearest with ties to even: IEEE-754 binary64
(Python float) rounding of a positive real. -/
def round53 (a b : Nat) : Dy :=
  let e0 : ℤ := (natLog2 a : ℤ) - (natLog2 b : ℤ)
  let e : ℤ :=
    if (if 0 ≤ e0 then a < b * 2 ^ e0.toNat else a * 2 ^ (-e0).toNat < b)
    then e0 - 1 else e0
  let s : ℤ := 52 - e
  if 0 ≤ s then ⟨rnte (a * 2 ^ s.toNat) b, s.toNat⟩
  else ⟨(rnte a (b * 2 ^ (-s).toNat) : ℤ) * 2 ^ (-s).toNat, 0⟩

/-- The double denoted by the nonnegative decimal literal n / d of the
Python source (e.g. the scale literal 0.1 is `dyOfFrac 1 10`). -/
def dyOfFrac (n d : Nat) : Dy := round53 n d

/-- IEEE double division of nonnegative doubles. -/
def dyDiv (x y : Dy) : Dy := round53 (x.m.toNat * 2 ^ y.e) (y.m.toNat * 2 ^ x.e)

/-- IEEE double multiplication of nonnegative doubles. -/
def dyMul (x y : Dy) : Dy := round53 (x.m.toNat * y.m.toNat) (2 ^ (x.e + y.e))

/-- Python int() of a nonnegative double: truncation toward zero. -/
def dyTruncInt (x : Dy) : ℤ := (x.m.toNat / 2 ^ x.e : ℕ)

/-- async_set_native_value's conversion in number.py:
`raw_value = int(value / self.descriptor.scale)` in IEEE-754 double
arithmetic; the resulting raw integer is what async_write_register
transmits. -/
def setNativeValueRaw (value scale : Dy) : ℤ := dyTruncInt (dyDiv value scale)

/-- Decode of a transmitted raw register word by the scaled-integer path of
_async_update_data, in IEEE-754 double arithmetic: raw * scale. -/
def decodeRawDouble (raw : Nat) (scale : Dy) : Dy := dyMul ⟨(raw : ℤ), 0⟩ scale

/-- The complete field catalog defined by const.py: the three descriptor
dicts. -/
structure Catalog where
  sensors : List (String × SensorDescriptor)
  switches : List (String × SwitchDescriptor)
  numbers : List (String × NumberDescriptor)
deriving DecidableEq

/-- Error taxonomy the spec prescribes for catalog validation. -/
inductive CatalogError where
  | duplicateAddress
  | invalidRange
deriving DecidableEq

/-- Catalog construction as const.py performs it: the module body creates
the descriptor dataclass instances and collects them into the three dicts.
The dataclasses define no __post_init__ or any other check, so construction
is total and never raises; the Except result type records the absence of a
failure path in the source. -/
def constructCatalog (s : List (String × SensorDescriptor))
    (w : List (String × SwitchDescriptor))
    (n : List (String × NumberDescriptor)) : Except CatalogError Catalog :=
  .ok ⟨s, w, n⟩

/-- Whether construction reported a CatalogError. -/
def isCatalogError : Except CatalogError Catalog → Bool
  | .error _ => true
  | .ok _ => false

/-- Bank and address of every catalog entry, for the spec's uniqueness
condition: sensors carry their configured register_type; switch and number
registers are accessed via the holding bank. -/
def catalogAddresses (c : Catalog) : List (RegisterType × Nat) :=
  c.sensors.map (fun kd => (kd.2.register_type, kd.2.register))
    ++ c.switches.map (fun kd => (RegisterType.holding, kd.2.register))
    ++ c.numbers.map (fun kd => (RegisterType.holding, kd.2.register))

/-- Whether the list contains a repeated element. -/
def hasDup : List (RegisterType × Nat) → Bool
  | [] => false
  | x :: xs => xs.contains x || hasDup xs

/-- Spec condition: some two descriptors share a register address within the
same bank. -/
def specDuplicateAddress (c : Catalog) : Bool := hasDup (catalogAddresses c)

/-- Spec condition: some writable numeric descriptor has min_value ≥
max_value. -/
def specInvalidRange (c : Catalog) : Bool :=
  c.numbers.any fun kd =>
    kd.2.writable && decide (kd.2.max_value ≤ kd.2.min_value)

/-- The catalog shipped in const.py. -/
def shippedCatalog : Catalog :=
  ⟨SENSOR_DESCRIPTORS, SWITCH_DESCRIPTORS, NUMBER_DESCRIPTORS⟩

/-- A two-entry sensor dict sharing one holding-bank address, as a
hypothetical input to catalog construction. -/
def clashingSensors : List (String × SensorDescriptor) :=
  [ ("field_a", { register := 0x0064, name := "Field A" }),
    ("field_b", { register := 0x0064, name := "Field B" }) ]

/-- The read request every poll cycle issues per catalog entry, in catalog
order: always the holding-bank function, with 2 registers for FLOAT32
fields and 1 otherwise, slave id 1. -/
def pollCalls : List ModbusCall :=
  SENSOR_DESCRIPTORS.map
      (fun kd => .readHolding kd.2.register (registerCount kd.2.data_type) 1)
    ++ SWITCH_DESCRIPTORS.map (fun kd => .readHolding kd.2.register 1 1)
    ++ NUMBER_DESCRIPTORS.map
      (fun kd => .readHolding kd.2.register (registerCount kd.2.data_type) 1)

/-- A device on which every operation succeeds: float32 reads return the
words of 22.5, single-register reads return 225. -/
def tOK : Transport :=
  ⟨.ok, fun _ n => .ok (if n = 2 then [0x41B4, 0x0000] else [225]),
    fun _ _ => .ok⟩

/-- A device that accepts connections and writes but answers every read with
an error response. -/
def tReadFail : Transport :=
  ⟨.ok, fun _ _ => .errorResponse, fun _ _ => .ok⟩

/-- A device whose connect attempts time out. -/
def tConnFail : Transport :=
  ⟨.timeout, fun _ _ => .errorResponse, fun _ _ => .ok⟩

/-- A cached snapshot entry used by the concrete scenarios. -/
def cacheB : List (String × PyVal) := [("circulation_pump", .boolean true)]

/-- Whether a wire call is a Read Input Registers request. -/
def isInputRead : ModbusCall → Bool
  | .readInput _ _ _ => true
  | _ => false

/-- A device that accepts connections and reads but times out on writes. -/
def tWriteFail : Transport :=
  ⟨.ok, fun _ _ => .ok [225], fun _ _ => .timeout⟩

/-- A read-only, disconnected coordinator whose previous cycle failed. -/
def cOff : Coordinator := ⟨⟨true, false, cacheB⟩, cacheB, false, 5⟩

/-- A writable, connected coordinator with a successful previous cycle. -/
def cRW : Coordinator := ⟨⟨false, true, cacheB⟩, cacheB, true, 5⟩

/-- A writable, disconnected coordinator whose previous cycle failed. -/
def cRWOff : Coordinator := ⟨⟨false, false, cacheB⟩, cacheB, false, 5⟩

theorem foldl_sensorStep_spec (t : Transport)
    (ds : List (String × SensorDescriptor)) :
    ∀ a : PollAcc, a.connected = true →
      (ds.foldl (sensorStep t) a).connected = true ∧
      (ds.foldl (sensorStep t) a).log = a.log ++ ds.map
        (fun kd => ModbusCall.readHolding kd.2.register
          (registerCount kd.2.data_type) 1) := by
  induction ds with
  | nil => intro a ha; simpa using ha
  | cons kd tl ih =>
      intro a ha
      have hstep1 : (sensorStep t a kd).connected = true := by
        simp [sensorStep, readReg, ha]
      have hstep2 : (sensorStep t a kd).log = a.log ++
          [ModbusCall.readHolding kd.2.register (registerCount kd.2.data_type) 1] := by
        simp [sensorStep, readReg, ha]
      obtain ⟨h1, h2⟩ := ih (sensorStep t a kd) hstep1
      refine ⟨by simpa using h1, ?_⟩
      simp only [List.foldl_cons, h2, hstep2, List.map_cons] at *
      simp [h2, hstep2, List.append_assoc]

theorem foldl_switchStep_spec (t : Transport)
    (ds : List (String × SwitchDescriptor)) :
    ∀ a : PollAcc, a.connected = true →
      (ds.foldl (switchStep t) a).connected = true ∧
      (ds.foldl (switchStep t) a).log = a.log ++ ds.map
        (fun kd => ModbusCall.readHolding kd.2.register 1 1) := by
  induction ds with
  | nil => intro a ha; simpa using ha
  | cons kd tl ih =>
      intro a ha
      have hstep1 : (switchStep t a kd).connected = true := by
        simp [switchStep, readReg, ha]
      have hstep2 : (switchStep t a kd).log = a.log ++
          [ModbusCall.readHolding kd.2.register 1 1] := by
        simp [switchStep, readReg, ha]
      obtain ⟨h1, h2⟩ := ih (switchStep t a kd) hstep1
      refine ⟨by simpa using h1, ?_⟩
      simp [h2, hstep2, List.append_assoc]

theorem foldl_numberStep_spec (t : Transport)
    (ds : List (String × NumberDescriptor)) :
    ∀ a : PollAcc, a.connected = true →
      (ds.foldl (numberStep t) a).connected = true ∧
      (ds.foldl (numberStep t) a).log = a.log ++ ds.map
        (fun kd => ModbusCall.readHolding kd.2.register
          (registerCount kd.2.data_type) 1) := by
  induction ds with
  | nil => intro a ha; simpa using ha
  | cons kd tl ih =>
      intro a ha
      have hstep1 : (numberStep t a kd).connected = true := by
        simp [numberStep, readReg, ha]
      have hstep2 : (numberStep t a kd).log = a.log ++
          [ModbusCall.readHolding kd.2.register (registerCount kd.2.data_type) 1] := by
        simp [numberStep, readReg, ha]
      obtain ⟨h1, h2⟩ := ih (numberStep t a kd) hstep1
      refine ⟨by simpa using h1, ?_⟩
      simp [h2, hstep2, List.append_assoc]

theorem pollAll_true_connected (t : Transport) :
    (pollAll t true).connected = true := by
  unfold pollAll
  have h1 := foldl_sensorStep_spec t SENSOR_DESCRIPTORS ⟨[], true, []⟩ rfl
  have h2 := foldl_switchStep_spec t SWITCH_DESCRIPTORS _ h1.1
  exact (foldl_numberStep_spec t NUMBER_DESCRIPTORS _ h2.1).1

theorem pollAll_true_log (t : Transport) :
    (pollAll t true).log = pollCalls := by
  unfold pollAll
  have h1 := foldl_sensorStep_spec t SENSOR_DESCRIPTORS ⟨[], true, []⟩ rfl
  have h2 := foldl_switchStep_spec t SWITCH_DESCRIPTORS _ h1.1
  have h3 := foldl_numberStep_spec t NUMBER_DESCRIPTORS _ h2.1
  rw [pollCalls]
  rw [h3.2, h2.2, h1.2]
  simp [List.append_assoc]

theorem connectStep_ok (cn : Bool) (t : Transport)
    (h : (connectStep cn t).1 = true) : (connectStep cn t).2.1 = true := by
  cases cn <;> rcases ht : t.connectResult <;>
    simp [connectStep, ht] at h ⊢

/-- C1 (amended): every poll cycle that has to establish its connection
issues, after the single connect, exactly one read request per catalog
entry in catalog order, each using the Read Holding Registers function —
regardless of the bank configured in the descriptor — with a count of 2
registers when the encoding is float32, else 1. -/
theorem poll_reads_holding_with_encoded_count (c : Coordinator) (t : Transport)
    (h1 : c.st.connected = false) (h2 : t.connectResult = .ok) :
    (refresh c t).2 = ModbusCall.connect :: pollCalls := by
  have hc : connectStep c.st.connected t = (true, true, [ModbusCall.connect]) := by
    simp [connectStep, h1, h2]
  have hlog := pollAll_true_log t
  simp [refresh, updateData, hc, hlog]

/-- Witness for `poll_reads_holding_with_encoded_count` at a concrete
disconnected coordinator and an accepting device. -/
theorem poll_reads_holding_with_encoded_count_witness :
    (refresh cOff tOK).2 = ModbusCall.connect :: pollCalls :=
  poll_reads_holding_with_encoded_count cOff tOK rfl rfl

/-- Counterexample to C1 as stated: the supply_temperature descriptor is
configured with the input bank, yet the cycle reads it with the Read
Holding Registers function, and no Read Input Registers request is ever
issued. -/
theorem poll_bank_ignored_cex :
    (SENSOR_DESCRIPTORS.lookup "supply_temperature").map
      SensorDescriptor.register_type = some RegisterType.input ∧
    ModbusCall.readHolding 0x0064 2 1 ∈ (refresh cOff tOK).2 ∧
    (refresh cOff tOK).2.all (fun call => !isInputRead call) = true := by
  refine ⟨by decide, by decide, by decide⟩

/-- C6: a poll cycle whose connect attempt fails (timeout or transport
error) fails as a whole: UpdateFailed is surfaced, the success flag is
cleared, and both the cached last_valid_data and the stored snapshot data
are left unmodified. -/
theorem connect_failure_fails_cycle (c : Coordinator) (t : Transport)
    (h1 : c.st.connected = false) (h2 : t.connectResult ≠ .ok) :
    updateData c.st t =
      (.error (), { c.st with connected := false }, [ModbusCall.connect]) ∧
    refresh c t =
      ({ st := { c.st with connected := false }, data := c.data,
         last_update_success := false, generation := c.generation },
        [ModbusCall.connect]) := by
  have hc : connectStep c.st.connected t = (false, false, [ModbusCall.connect]) := by
    rcases ht : t.connectResult with h | h | h
    · exact absurd ht h2
    · simp [connectStep, h1, ht]
    · simp [connectStep, h1, ht]
  have hu : updateData c.st t =
      (.error (), { c.st with connected := false }, [ModbusCall.connect]) := by
    simp [updateData, hc]
  exact ⟨hu, by simp [refresh, hu]⟩

/-- Witness for `connect_failure_fails_cycle` at a concrete coordinator and
a device whose connect attempts time out. -/
theorem connect_failure_fails_cycle_witness :
    updateData cRWOff.st tConnFail =
      (.error (), { cRWOff.st with connected := false }, [ModbusCall.connect]) ∧
    refresh cRWOff tConnFail =
      ({ st := { cRWOff.st with connected := false }, data := cRWOff.data,
         last_update_success := false, generation := cRWOff.generation },
        [ModbusCall.connect]) :=
  connect_failure_fails_cycle cRWOff tConnFail rfl (by decide)

/-- C2 (amended): a cycle whose connection succeeds but whose every
per-field read fails returns the previously cached snapshot data unchanged
and leaves the cache unchanged, but reports the cycle as successful: the
success flag is set to true regardless of its prior value. -/
theorem empty_sweep_keeps_data_sets_success (c : Coordinator) (t : Transport)
    (h1 : (connectStep c.st.connected t).1 = true)
    (h2 : (pollAll t true).data = []) :
    updateData c.st t = (.ok ([], c.st.last_valid_data),
        { c.st with connected := true },
        (connectStep c.st.connected t).2.2 ++ pollCalls) ∧
    (refresh c t).1.data = c.st.last_valid_data ∧
    (refresh c t).1.st.last_valid_data = c.st.last_valid_data ∧
    (refresh c t).1.last_update_success = true ∧
    (refresh c t).1.generation = c.generation := by
  have hpc := pollAll_true_connected t
  have hpl := pollAll_true_log t
  have h21 := connectStep_ok _ _ h1
  have hc : connectStep c.st.connected t =
      (true, true, (connectStep c.st.connected t).2.2) := by
    rcases hcs : connectStep c.st.connected t with ⟨b1, b2, lg⟩
    rw [hcs] at h1 h21
    simp at h1 h21
    simp [h1, h21]
  have hu : updateData c.st t = (.ok ([], c.st.last_valid_data),
      { c.st with connected := true },
      (connectStep c.st.connected t).2.2 ++ pollCalls) := by
    conv_lhs => rw [updateData, hc]
    simp [h2, hpc, hpl]
  refine ⟨hu, ?_, ?_, ?_, ?_⟩ <;> simp [refresh, hu, h2]

/-- Witness for `empty_sweep_keeps_data_sets_success` at a concrete
coordinator whose previous cycle failed and a device answering every read
with an error response. -/
theorem empty_sweep_keeps_data_sets_success_witness :
    updateData cRWOff.st tReadFail = (.ok ([], cRWOff.st.last_valid_data),
        { cRWOff.st with connected := true },
        (connectStep cRWOff.st.connected tReadFail).2.2 ++ pollCalls) ∧
    (refresh cRWOff tReadFail).1.data = cRWOff.st.last_valid_data ∧
    (refresh cRWOff tReadFail).1.st.last_valid_data = cRWOff.st.last_valid_data ∧
    (refresh cRWOff tReadFail).1.last_update_success = true ∧
    (refresh cRWOff tReadFail).1.generation = cRWOff.generation :=
  empty_sweep_keeps_data_sets_success cRWOff tReadFail (by decide) (by decide)

/-- Counterexample to C2 as stated: with a reachable device and a fully
failed field sweep, the cached data is indeed returned unchanged, but the
success flag is not left unchanged — it is flipped from false to true. -/
theorem empty_sweep_flips_success_cex :
    (refresh cRWOff tReadFail).1.data = cRWOff.data ∧
    cRWOff.last_update_success = false ∧
    (refresh cRWOff tReadFail).1.last_update_success = true := by
  refine ⟨by decide, by decide, by decide⟩

/-- C5: a write on a read-only coordinator raises the read-only violation
immediately, before any transport call, leaving the coordinator untouched;
on a writable coordinator the call never raises — a connect failure or any
write-level transport failure makes it return False instead. -/
theorem write_read_only_guard (c : Coordinator) (t : Transport) (r v : Nat) :
    (c.st.read_only = true → coordWrite c t r v = (.raisedReadOnly, c, [])) ∧
    (c.st.read_only = false → (coordWrite c t r v).1 ≠ .raisedReadOnly) ∧
    (c.st.read_only = false → (connectStep c.st.connected t).1 = false →
      (coordWrite c t r v).1 = .returned false) ∧
    (c.st.read_only = false → t.writeResult r v ≠ .ok →
      (coordWrite c t r v).1 = .returned false) := by
  refine ⟨fun h => by simp [coordWrite, h], fun h => ?_, fun h hcf => ?_, fun h hw => ?_⟩
  · rcases hcs : (connectStep c.st.connected t).1 with _ | _
    · simp [coordWrite, h, hcs]
    · rcases hwr : t.writeResult r v <;> simp [coordWrite, h, hcs, hwr]
  · simp [coordWrite, h, hcf]
  · rcases hcs : (connectStep c.st.connected t).1 with _ | _
    · simp [coordWrite, h, hcs]
    · rcases hwr : t.writeResult r v
      · exact absurd hwr hw
      all_goals simp [coordWrite, h, hcs, hwr]

/-- Witness for `write_read_only_guard`: a read-only coordinator rejects
without transport calls; a writable one returns False on a write timeout
and never raises on a healthy device. -/
theorem write_read_only_guard_witness :
    coordWrite cOff tOK 1 1 = (.raisedReadOnly, cOff, []) ∧
    (coordWrite cRW tOK 1 1).1 ≠ .raisedReadOnly ∧
    (coordWrite cRW tWriteFail 1 1).1 = .returned false :=
  ⟨(write_read_only_guard cOff tOK 1 1).1 rfl,
   (write_read_only_guard cRW tOK 1 1).2.1 rfl,
   (write_read_only_guard cRW tWriteFail 1 1).2.2.2 rfl (by decide)⟩

/-- C4 (amended): a successful write immediately runs a full poll cycle
before returning — the wire log ends with the complete cycle's reads after
the single write request — and reports the cycle successful; the snapshot
generation grows strictly exactly when that cycle decodes at least one
field, and is unchanged when every read of the triggered cycle fails. -/
theorem write_success_resync (c : Coordinator) (t : Transport) (r v : Nat)
    (h : (coordWrite c t r v).1 = .returned true) :
    (coordWrite c t r v).2.2 =
      (connectStep c.st.connected t).2.2 ++
        [ModbusCall.writeSingle r v 1] ++ pollCalls ∧
    (coordWrite c t r v).2.1.last_update_success = true ∧
    (coordWrite c t r v).2.1.generation =
      (if (pollAll t true).data = [] then c.generation else c.generation + 1) ∧
    ((pollAll t true).data ≠ [] →
      c.generation < (coordWrite c t r v).2.1.generation) := by
  have hpl := pollAll_true_log t
  have hup : ∀ cc : Coordinator, cc.st.connected = true →
      refresh cc t =
        ({ st := { cc.st with
             connected := (pollAll t true).connected,
             last_valid_data := ite ((pollAll t true).data = [])
               cc.st.last_valid_data (pollAll t true).data },
           data := ite ((pollAll t true).data = [])
             cc.st.last_valid_data (pollAll t true).data,
           last_update_success := true,
           generation := ite ((pollAll t true).data = [])
             cc.generation (cc.generation + 1) }, pollCalls) := by
    intro cc hcc
    simp only [refresh, updateData]
    simp [hcc, connectStep, hpl]
  rcases hro : c.st.read_only with _ | _
  · rcases hcs : (connectStep c.st.connected t).1 with _ | _
    · simp [coordWrite, hro, hcs] at h
    · rcases hwr : t.writeResult r v
      case ok =>
        have h21 := connectStep_ok _ t hcs
        have hcw : coordWrite c t r v =
            (.returned true,
             (refresh { c with st :=
               { c.st with connected := (connectStep c.st.connected t).2.1 } } t).1,
             (connectStep c.st.connected t).2.2 ++
               [ModbusCall.writeSingle r v 1] ++
               (refresh { c with st :=
                 { c.st with connected := (connectStep c.st.connected t).2.1 } } t).2) := by
          simp [coordWrite, hro, hcs, hwr]
        rw [hcw, hup _ (by simpa using h21)]
        refine ⟨by simp, by simp, by simp, fun hne => by simp [hne]⟩
      all_goals simp [coordWrite, hro, hcs, hwr] at h
  · simp [coordWrite, hro] at h

/-- Witness for `write_success_resync` at a writable connected coordinator
and a healthy device: the triggered cycle decodes fields, so the
generation strictly increases. -/
theorem write_success_resync_witness :
    (coordWrite cRW tOK 0x0130 450).2.2 =
      (connectStep cRW.st.connected tOK).2.2 ++
        [ModbusCall.writeSingle 0x0130 450 1] ++ pollCalls ∧
    cRW.generation < (coordWrite cRW tOK 0x0130 450).2.1.generation := by
  have h := write_success_resync cRW tOK 0x0130 450 (by decide)
  exact ⟨h.1, h.2.2.2 (by decide)⟩

/-- Counterexample to C4 as stated: a write that succeeds while every read
of the triggered resync cycle fails returns True, yet the generation of the
next snapshot is unchanged, not strictly greater. -/
theorem write_success_generation_unchanged_cex :
    (coordWrite cRW tReadFail 0x0130 450).1 = .returned true ∧
    (coordWrite cRW tReadFail 0x0130 450).2.1.generation = cRW.generation := by
  refine ⟨by decide, by decide⟩

/-- C3 (amended): catalog construction performs no validation and never
fails — no CatalogError exists in the code and no failure path is taken for
any input, including invalid ones; the shipped catalog happens to satisfy
both spec conditions: no two descriptors share an address within a bank,
and no writable numeric descriptor has min_value ≥ max_value. -/
theorem catalog_construction_never_fails :
    (∀ s w n, isCatalogError (constructCatalog s w n) = false) ∧
    specDuplicateAddress shippedCatalog = false ∧
    specInvalidRange shippedCatalog = false := by
  refine ⟨fun s w n => rfl, by decide, ?_⟩
  simp only [specInvalidRange, shippedCatalog, NUMBER_DESCRIPTORS]
  norm_num

/-- Counterexample to C3 as stated: a catalog with two descriptors sharing
a holding-bank address constructs successfully with no CatalogError, so
construction failure is not equivalent to the presence of a duplicate
address or an invalid range. -/
theorem catalog_duplicate_accepted_cex :
    isCatalogError (constructCatalog clashingSensors [] []) = false ∧
    specDuplicateAddress ⟨clashingSensors, [], []⟩ = true := by
  refine ⟨rfl, by decide⟩

/-- C7: float32 decoding concatenates the first register as the big-endian
high word and the second as the low word and reinterprets the 32-bit
pattern as an IEEE-754 single-precision value, then multiplies by the
field's scale; the supply_temperature descriptor (address 0x0064, scale 1)
decodes raw registers [0x41B4, 0x0000] to exactly 22.5. -/
theorem float32_decode_concatenates_be_words :
    (∀ (d : SensorDescriptor) (h l : Nat), d.data_type = .float32 →
      h < 2 ^ 16 → l < 2 ^ 16 →
      decodeValue d.data_type d.scale (.multi [h, l]) =
        some (pyvalMulScale (float32FromBits (h * 2 ^ 16 + l)) d.scale)) ∧
    (∀ d, SENSOR_DESCRIPTORS.lookup "supply_temperature" = some d →
      d.register = 0x0064 ∧ d.data_type = .float32 ∧ d.scale = 1 ∧
      decodeValue d.data_type d.scale (.multi [0x41B4, 0x0000]) =
        some (.num (45 / 2))) := by
  constructor
  · intro d h l hdt hh hl
    have hh' : h < 65536 := by simpa using hh
    have hl' : l < 65536 := by simpa using hl
    simp [decodeValue, hdt, hh', hl']
  · intro d hd
    simp only [SENSOR_DESCRIPTORS, List.lookup] at hd
    norm_num at hd
    subst hd
    refine ⟨rfl, rfl, by norm_num, ?_⟩
    simp only [decodeValue, float32FromBits, pyvalMulScale]
    norm_num

/-- Witness for `float32_decode_concatenates_be_words` at the
supply_temperature descriptor and the registers of 22.5. -/
theorem float32_decode_concatenates_be_words_witness :
    decodeValue DataType.float32 1 (.multi [0x41B4, 0x0000]) =
      some (pyvalMulScale (float32FromBits (0x41B4 * 2 ^ 16 + 0x0000)) 1) ∧
    decodeValue DataType.float32 1 (.multi [0x41B4, 0x0000]) =
      some (.num (45 / 2)) := by
  constructor
  · exact float32_decode_concatenates_be_words.1
      { register := 0x0064, name := "Supply Temperature",
        data_type := .float32, scale := 1, register_type := .input }
      0x41B4 0x0000 rfl (by norm_num) (by norm_num)
  · exact (float32_decode_concatenates_be_words.2
      { register := 0x0064, name := "Supply Temperature",
        data_type := .float32, scale := 1, register_type := .input }
      rfl).2.2.2

/-- C8: every non-float32 (single-register) field decodes to exactly
raw_register * scale; the setpoint_temperature descriptor (address 0x0068,
scale 0.1) decodes raw register 225 to exactly 22.5. -/
theorem scaled_int_decode_law :
    (∀ (key : String) (d : SensorDescriptor), (key, d) ∈ SENSOR_DESCRIPTORS →
      d.data_type ≠ .float32 → ∀ raw : Nat,
      decodeValue d.data_type d.scale (.single raw) =
        some (.num ((raw : ℚ) * d.scale))) ∧
    (∀ d, SENSOR_DESCRIPTORS.lookup "setpoint_temperature" = some d →
      d.register = 0x0068 ∧ d.scale = 0.1 ∧
      decodeValue d.data_type d.scale (.single 225) = some (.num (45 / 2))) := by
  constructor
  · intro key d hmem hdt raw
    rcases hd2 : d.data_type with _ | _ | _
    · simp [decodeValue, hd2]
    · exact absurd hd2 hdt
    · simp [decodeValue, hd2]
  · intro d hd
    have e1 : ("setpoint_temperature" == "supply_temperature") = false := by decide
    have e2 : ("setpoint_temperature" == "return_temperature") = false := by decide
    simp only [SENSOR_DESCRIPTORS, List.lookup, e1, e2, beq_self_eq_true] at hd
    norm_num at hd
    subst hd
    refine ⟨rfl, by norm_num, ?_⟩
    simp only [decodeValue]
    norm_num

/-- Witness for `scaled_int_decode_law` at the setpoint_temperature
descriptor with raw register 225. -/
theorem scaled_int_decode_law_witness :
    decodeValue DataType.int16 0.1 (.single 225) =
      some (.num ((225 : Nat) * (0.1 : ℚ))) ∧
    decodeValue DataType.int16 0.1 (.single 225) = some (.num (45 / 2)) := by
  constructor
  · exact scaled_int_decode_law.1 "setpoint_temperature"
      { register := 0x0068, name := "Setpoint Temperature",
        scale := 0.1, register_type := .holding }
      (List.Mem.tail _ (List.Mem.tail _ (List.Mem.head _)))
      (by intro hc; cases hc) 225
  · exact (scaled_int_decode_law.2
      { register := 0x0068, name := "Setpoint Temperature",
        scale := 0.1, register_type := .holding } rfl).2.2

/-- C10: a field declared int16 decodes its raw register word as an
unsigned value in [0, 65535] with no sign extension, so with a nonnegative
scale the decoded value is never negative; in particular a register holding
0xFFFF decodes to 65535 * scale, not -1 * scale. -/
theorem int16_decode_no_sign_extension (d : SensorDescriptor) (raw : Nat)
    (hdt : d.data_type = .int16) (hs : 0 ≤ d.scale) :
    decodeValue d.data_type d.scale (.single raw) =
      some (.num ((raw : ℚ) * d.scale)) ∧
    0 ≤ (raw : ℚ) * d.scale ∧
    decodeValue d.data_type d.scale (.single 0xFFFF) =
      some (.num ((65535 : ℚ) * d.scale)) := by
  refine ⟨?_, mul_nonneg (Nat.cast_nonneg raw) hs, ?_⟩ <;>
    simp [decodeValue, hdt]

/-- Witness for `int16_decode_no_sign_extension` at the operating_mode
descriptor (int16, scale 1) with raw register 7. -/
theorem int16_decode_no_sign_extension_witness :
    decodeValue DataType.int16 1 (.single 7) =
      some (.num (((7 : Nat) : ℚ) * 1)) ∧
    0 ≤ (((7 : Nat) : ℚ)) * 1 ∧
    decodeValue DataType.int16 1 (.single 0xFFFF) =
      some (.num ((65535 : ℚ) * 1)) :=
  int16_decode_no_sign_extension
    { register := 0x006F, name := "Operating Mode",
      scale := 1, register_type := .input } 7 rfl (by norm_num)

/-- Counterexample to C9 as stated: at the claim's own example — user value
22.5 on the scale-0.1 field — the IEEE-754 double quotient 22.5 / 0.1 is
exactly 225.0, so the transmitted raw register is 225 (not 224) and it
decodes back via raw * scale to exactly 22.5, the very value the user set:
the round-trip is the identity there. -/
theorem number_roundtrip_at_example_cex :
    (NUMBER_DESCRIPTORS.lookup "target_room_temperature").map
      NumberDescriptor.scale = some 0.1 ∧
    setNativeValueRaw (dyOfFrac 45 2) (dyOfFrac 1 10) = 225 ∧
    dyToRat (decodeRawDouble 225 (dyOfFrac 1 10)) = 45 / 2 := by
  have e1 : ("target_room_temperature" == "target_supply_temperature") = false := by
    decide
  have h1 : setNativeValueRaw (dyOfFrac 45 2) (dyOfFrac 1 10) = 225 := by
    set_option maxRecDepth 8000 in decide
  have h2 : decodeRawDouble 225 (dyOfFrac 1 10) = ⟨6333186975989760, 48⟩ := by
    set_option maxRecDepth 8000 in decide
  refine ⟨?_, h1, ?_⟩
  · simp only [NUMBER_DESCRIPTORS, List.lookup, e1, beq_self_eq_true, Option.map]
  · rw [h2]
    norm_num [dyToRat]

/-- C9 (amended): the number entity converts with truncation toward zero,
int(value / scale), not rounding: the in-range value 22.58 on the scale-0.1
field (range 10–30) has double quotient 22.58 / 0.1 = 225.79999…, above
225.5, yet transmits raw register 225, which decodes back via raw * scale
to exactly 22.5, strictly below the value the user set — the set-then-read
round-trip is not the identity for such in-range values, though it is the
identity on the field's 0.5-step grid values such as 22.5. -/
theorem number_truncation_breaks_roundtrip :
    dyToRat (dyOfFrac 1129 50) = 1588926243531653 / 2 ^ 46 ∧
    (NUMBER_DESCRIPTORS.lookup "target_room_temperature").map
      NumberDescriptor.min_value = some 10 ∧
    (NUMBER_DESCRIPTORS.lookup "target_room_temperature").map
      NumberDescriptor.max_value = some 30 ∧
    10 ≤ dyToRat (dyOfFrac 1129 50) ∧ dyToRat (dyOfFrac 1129 50) ≤ 30 ∧
    225 + 1 / 2 < dyToRat (dyDiv (dyOfFrac 1129 50) (dyOfFrac 1 10)) ∧
    setNativeValueRaw (dyOfFrac 1129 50) (dyOfFrac 1 10) = 225 ∧
    dyToRat (decodeRawDouble 225 (dyOfFrac 1 10)) = 45 / 2 ∧
    45 / 2 + 1 / 50 < dyToRat (dyOfFrac 1129 50) := by
  have e1 : ("target_room_temperature" == "target_supply_temperature") = false := by
    decide
  have h0 : dyOfFrac 1129 50 = ⟨6355704974126612, 48⟩ := by
    set_option maxRecDepth 8000 in decide
  have h1 : dyDiv (dyOfFrac 1129 50) (dyOfFrac 1 10) = ⟨7944631217658265, 45⟩ := by
    set_option maxRecDepth 8000 in decide
  have h2 : setNativeValueRaw (dyOfFrac 1129 50) (dyOfFrac 1 10) = 225 := by
    set_option maxRecDepth 8000 in decide
  have h3 : decodeRawDouble 225 (dyOfFrac 1 10) = ⟨6333186975989760, 48⟩ := by
    set_option maxRecDepth 8000 in decide
  refine ⟨by rw [h0]; norm_num [dyToRat], ?_, ?_,
    by rw [h0]; norm_num [dyToRat], by rw [h0]; norm_num [dyToRat],
    by rw [h1]; norm_num [dyToRat], h2,
    by rw [h3]; norm_num [dyToRat], by rw [h0]; norm_num [dyToRat]⟩
  · simp only [NUMBER_DESCRIPTORS, List.lookup, e1, beq_self_eq_true, Option.map]
  · simp only [NUMBER_DESCRIPTORS, List.lookup, e1, beq_self_eq_true, Option.map]

end Heliotherm
